import Mathlib

/-!
# Document Ingestion & Vector Retrieval Store — verification

A shallow embedding of the RAG document store of this repository and of its
frontend API client, together with proofs of the specified properties.

The repository's sources available here are the frontend API client
(`api.ts`: `queryDocuments`, `uploadDocument`, `ingestText`, `getHealth`, and
the `QueryRequest` / `IngestResponse` records), the Next.js layout and chart
wrapper, the start scripts, and the backend's own design documents
(`FIXES_APPLIED.md`, `TROUBLESHOOTING.md`).  The backend core — Chunker,
Embedding Client, Vector Index, Chunk Store and Retrieval Store — is not among
them, so those components are modelled from the specification, as marked on
each definition.
-/

namespace RagStore

/-- Errors of the store's taxonomy (spec §7): configuration errors, dimension
mismatches, provider failures, the embedding-step failure reported by ingest,
integrity violations of invariant I1, and missing positions. -/
inductive StoreError where
  | configError
  | dimensionMismatch
  | embeddingProvider (msg : String)
  | embeddingFailed
  | integrityError
  | notFound
  deriving Repr, DecidableEq

/-- Modelled from the spec (§4.1 Chunker): the recursive splitting loop.  Takes
the current remainder of the text; if it fits in one segment of `chunkSize`
units it becomes the last segment, otherwise the first `chunkSize` units form a
segment and the loop continues `step = chunkSize - overlap` units further on,
so that consecutive segments share `overlap` units.  `fuel` bounds the
recursion and is always supplied as at least the length of the text, which
suffices since the step is at least one unit for valid parameters. -/
def chunkAux (chunkSize step : Nat) : Nat → List Char → List (List Char)
  | 0, cs => [cs]
  | fuel + 1, cs =>
    if cs.length ≤ chunkSize then [cs]
    else cs.take chunkSize :: chunkAux chunkSize step fuel (cs.drop (max step 1))

/-- Modelled from the spec (§4.1 Chunker): `chunk(text, chunkSize, overlap) ->
sequence of chunk texts`.  Splits text into segments of at most `chunkSize`
units with `overlap` units shared between consecutive segments; fails with
`ConfigError` unless `overlap < chunkSize`; never emits an empty segment (an
empty text yields no segments); a text shorter than `chunkSize` yields exactly
one segment equal to the whole text. -/
def chunk (text : String) (chunkSize overlap : Nat) : Except StoreError (List String) :=
  if chunkSize ≤ overlap then
    .error .configError
  else if text.toList.isEmpty then
    .ok []
  else
    .ok ((chunkAux chunkSize (chunkSize - overlap) text.toList.length text.toList).map
      (fun cs => String.mk cs))

/-- A vector: an ordered sequence of numbers.  The spec leaves the scalar type
to the implementation; rationals model the exact arithmetic of the similarity
comparisons. -/
abbrev Vec := List ℚ

/-- Inner-product similarity between two vectors (spec §4.3: the metric is an
implementation choice; an inner product is used consistently in this model for
both ingestion and query). -/
def dot (u v : Vec) : ℚ := (List.zipWith (fun a b => a * b) u v).sum

/-- Modelled from the spec (§4.3 Vector Index): an append-only
nearest-neighbour structure over fixed-dimension vectors.  The dimension is
established on first add (`none` until then) and unfixed by reset. -/
structure VectorIndex where
  dim : Option Nat
  vectors : List Vec
  deriving Repr, DecidableEq

/-- The empty vector index: no vectors, dimension not yet fixed. -/
def VectorIndex.empty : VectorIndex := { dim := none, vectors := [] }

/-- `size()` of the Vector Index (spec §4.3). -/
def VectorIndex.size (idx : VectorIndex) : Nat := idx.vectors.length

/-- Descending-similarity order on `(position, similarity)` pairs: `a` comes
no later than `b` when `a`'s similarity is at least `b`'s. -/
def simGE (a b : Nat × ℚ) : Prop := b.2 ≤ a.2

instance : DecidableRel simGE := fun a b => inferInstanceAs (Decidable (b.2 ≤ a.2))

instance : IsTotal (Nat × ℚ) simGE := ⟨fun a b => le_total b.2 a.2⟩

instance : IsTrans (Nat × ℚ) simGE := ⟨fun _ _ _ hab hbc => le_trans hbc hab⟩

/-- Modelled from the spec (§4.3 Vector Index): `search(queryVector, k,
threshold)` scores every stored vector against the query, drops entries whose
similarity is below `threshold`, orders the rest by descending similarity and
truncates to at most `k` entries. -/
def VectorIndex.search (idx : VectorIndex) (q : Vec) (k : Nat) (threshold : ℚ) :
    List (Nat × ℚ) :=
  (List.insertionSort simGE
    ((idx.vectors.enum.map (fun p => (p.1, dot q p.2))).filter
      (fun p => decide (threshold ≤ p.2)))).take k

/-- Modelled from the spec (§3 Data Model): a chunk record — stable 0-based
position, text, opaque source-document id, and a string-to-scalar metadata
mapping.  Immutable once created. -/
structure Chunk where
  id : Nat
  text : String
  sourceDocumentId : String
  metadata : List (String × String)
  deriving Repr, DecidableEq

/-- Modelled from the spec (§4.5 Retrieval Store): the orchestrator's state —
the Chunk Store, the Vector Index, the generation counter incremented on
reset, and the fail-stop flag set when invariant I1 is found violated after an
add (further writes are refused until `reset()`). -/
structure StoreState where
  chunks : List Chunk
  index : VectorIndex
  generation : Nat
  frozen : Bool
  deriving Repr, DecidableEq

/-- The store's initial state: both collections empty, generation zero,
writable. -/
def emptyStore : StoreState :=
  { chunks := [], index := VectorIndex.empty, generation := 0, frozen := false }

/-- Modelled from the spec (§3 Data Model): `StatsSnapshot` — chunk count,
vector count, the sync flag `chunksCount == totalVectors`, and the number of
distinct source documents; derived live from the two collections, never a
separately maintained counter. -/
structure StatsSnapshot where
  chunksCount : Nat
  totalVectors : Nat
  isSynced : Bool
  documentsCount : Nat
  deriving Repr, DecidableEq

/-- Modelled from the spec (§4.5): `stats()` recomputed on demand from the
underlying collections. -/
def stats (st : StoreState) : StatsSnapshot :=
  { chunksCount := st.chunks.length,
    totalVectors := st.index.vectors.length,
    isSynced := st.chunks.length == st.index.vectors.length,
    documentsCount := (st.chunks.map (fun c => c.sourceDocumentId)).eraseDups.length }

/-- Modelled from the spec (§4.5): `reset()` clears both collections,
increments the generation counter and makes the store writable again (the
documented recovery path from an integrity failure). -/
def reset (st : StoreState) : StoreState :=
  { chunks := [], index := VectorIndex.empty, generation := st.generation + 1,
    frozen := false }

/-- Modelled from the spec (§4.3): `add(vectors)` appends to the index; the
dimension is fixed by the first vector ever added and any vector of a
different length fails the whole batch with `DimensionMismatchError`. -/
def indexAdd (idx : VectorIndex) (vs : List Vec) : Except StoreError VectorIndex :=
  match vs with
  | [] => .ok idx
  | v :: _ =>
    let d := idx.dim.getD v.length
    if vs.all (fun w => w.length == d) then
      .ok { dim := some d, vectors := idx.vectors ++ vs }
    else
      .error .dimensionMismatch

/-- Chunk records built for a newly ingested batch: positions continue the
store's current sequence, all carry the call's source-document id and
metadata. -/
def mkChunks (startId : Nat) (texts : List String) (srcId : String)
    (meta : List (String × String)) : List Chunk :=
  texts.enum.map (fun p =>
    { id := startId + p.1, text := p.2, sourceDocumentId := srcId, metadata := meta })

/-- `IngestResult{chunksAdded, totalChunks, totalVectors}` returned by a
successful ingest (spec §4.5). -/
structure IngestResult where
  chunksAdded : Nat
  totalChunks : Nat
  totalVectors : Nat
  deriving Repr, DecidableEq

/-- Modelled from the spec (§4.5 Retrieval Store): `ingest` chunks the text,
requests embeddings for all chunk texts as one atomic batch, aborts with
`EmbeddingFailed` on any embedding failure without touching either collection,
appends chunks and vectors together, re-verifies invariant I1 immediately
after the add (rolling the batch back and freezing the store on a violation),
and reports counts drawn from the authoritative post-add state.  The embedding
client is passed in as a function from the batch of texts to either the batch
of vectors or an error. -/
def ingest (embed : List String → Except StoreError (List Vec)) (st : StoreState)
    (text srcId : String) (meta : List (String × String)) (chunkSize overlap : Nat) :
    StoreState × Except StoreError IngestResult :=
  if st.frozen then (st, .error .integrityError)
  else
    match chunk text chunkSize overlap with
    | .error e => (st, .error e)
    | .ok texts =>
      match embed texts with
      | .error _ => (st, .error .embeddingFailed)
      | .ok vecs =>
        match indexAdd st.index vecs with
        | .error e => (st, .error e)
        | .ok idx2 =>
          if (st.chunks ++ mkChunks st.chunks.length texts srcId meta).length
              = idx2.vectors.length then
            ({ st with chunks := st.chunks ++ mkChunks st.chunks.length texts srcId meta,
                       index := idx2 },
             .ok { chunksAdded := texts.length,
                   totalChunks := (st.chunks ++ mkChunks st.chunks.length texts srcId meta).length,
                   totalVectors := idx2.vectors.length })
          else
            ({ st with frozen := true }, .error .integrityError)

/-- One ingest call's arguments. -/
structure IngestRequest where
  text : String
  sourceDocumentId : String
  metadata : List (String × String)
  chunkSize : Nat
  overlap : Nat

/-- A sequence of ingest calls threaded through the store, returning the final
state and the outcome of each call in order. -/
def runIngests (embed : List String → Except StoreError (List Vec)) :
    List IngestRequest → StoreState → StoreState × List (Except StoreError IngestResult)
  | [], st => (st, [])
  | r :: rs, st =>
    let step := ingest embed st r.text r.sourceDocumentId r.metadata r.chunkSize r.overlap
    let rest := runIngests embed rs step.1
    (rest.1, step.2 :: rest.2)

/-- Whether an ingest outcome is a success. -/
def isOk : Except StoreError IngestResult → Bool
  | .ok _ => true
  | .error _ => false

/-- A deterministic stub embedding client for concrete evaluations: every text
of a batch maps to the one-dimensional vector `[1]`. -/
def stubEmbed : List String → Except StoreError (List Vec) :=
  fun ts => .ok (ts.map (fun _ => [(1 : ℚ)]))

/-- Modelled from the spec (§4.5 query, step 3): map index positions back to
Chunk Store entries; a position that does not resolve is an
`IntegrityError`. -/
def resolvePositions (chunks : List Chunk) :
    List (Nat × ℚ) → Except StoreError (List (Chunk × ℚ))
  | [] => .ok []
  | p :: rest =>
    match chunks[p.1]? with
    | none => .error .integrityError
    | some c =>
      match resolvePositions chunks rest with
      | .error e => .error e
      | .ok l => .ok ((c, p.2) :: l)

/-- Modelled from the spec (§4.5 Retrieval Store): `query(questionText, topK,
threshold)`.  A query against an empty store returns an empty sequence
immediately and is not an error; otherwise the question is embedded, the index
searched with `(topK, threshold)`, and the returned positions mapped back to
chunks.  The query-embedding client is passed in as a function. -/
def queryStore (embedQ : String → Except StoreError Vec) (st : StoreState)
    (question : String) (topK : Nat) (threshold : ℚ) :
    Except StoreError (List (Chunk × ℚ)) :=
  if st.index.vectors.isEmpty then .ok []
  else
    match embedQ question with
    | .error e => .error e
    | .ok qv => resolvePositions st.chunks (st.index.search qv topK threshold)

end RagStore

namespace ApiClient

/-!  The frontend API client, embedded from `api.ts`.  An axios call either
succeeds with parsed response data or fails; a failure carries the optional
backend `response.data.detail` field and the optional transport
`error.message`.  Each client function returns the data or throws an `Error`
whose message is `detail || message || fallback` in JavaScript's `||`
semantics (an empty string is falsy and falls through). -/

/-- JavaScript's `a || b` for an optional string left operand: `a`'s value
when it is present and non-empty (truthy), otherwise `b`. -/
def jsOr (a : Option String) (b : String) : String :=
  match a with
  | none => b
  | some s => if s = "" then b else s

/-- The observable outcome of an axios request: parsed data on success, or the
optional `error.response.data.detail` and optional `error.message` on
failure. -/
inductive AxiosOutcome (α : Type) where
  | success (data : α)
  | failure (detail : Option String) (message : Option String)

/-- What a client function does: return the response data, or throw an
`Error` with a message. -/
inductive ClientResult (α : Type) where
  | ok (data : α)
  | thrown (message : String)

/-- The `try { return response.data } catch { throw new Error(detail ||
message || fallback) }` pattern shared by all four client functions in
`api.ts`. -/
def clientCall {α : Type} (fallback : String) : AxiosOutcome α → ClientResult α
  | .success d => .ok d
  | .failure detail message => .thrown (jsOr detail (jsOr message fallback))

/-- One retrieved source in a query response (`api.ts` `QueryResponse`). -/
structure QueryResponseSource where
  chunk : String
  similarity : ℚ
  metadata : List (String × String)

/-- `QueryResponse` from `api.ts`: answer, sources, and the echoed query. -/
structure QueryResponse where
  answer : String
  sources : List QueryResponseSource
  query : String

/-- `IngestResponse` from `api.ts`: the record the frontend parses from a
successful ingest or upload call. -/
structure IngestResponse where
  message : String
  chunks_added : Nat
  total_chunks : Nat
  deriving Repr, DecidableEq

/-- The field names of the `IngestResponse` interface declared in `api.ts`,
in declaration order. -/
def ingestResponseFields : List String := ["message", "chunks_added", "total_chunks"]

/-- `QueryRequest` from `api.ts`: the body of a `/query` post; `top_k` and
`threshold` are optional and absent fields stay `undefined`. -/
structure QueryRequest where
  query : String
  top_k : Option Nat
  threshold : Option ℚ

/-- The request body `{ query, top_k: topK, threshold }` that `queryDocuments`
posts, from `api.ts`. -/
def queryRequestBody (query : String) (topK : Option Nat) (threshold : Option ℚ) :
    QueryRequest :=
  { query := query, top_k := topK, threshold := threshold }

/-- `queryDocuments` from `api.ts`: posts the built request body over the
given transport and handles success and failure as `clientCall` with the
fallback `"Failed to query documents"`. -/
def queryDocuments (transport : QueryRequest → AxiosOutcome QueryResponse)
    (query : String) (topK : Option Nat) (threshold : Option ℚ) :
    ClientResult QueryResponse :=
  clientCall "Failed to query documents" (transport (queryRequestBody query topK threshold))

/-- `uploadDocument` from `api.ts`: posts the file as form data and handles
the outcome as `clientCall` with the fallback `"Failed to upload file"`.  The
file is opaque here. -/
def uploadDocument {File : Type} (transport : File → AxiosOutcome IngestResponse)
    (file : File) : ClientResult IngestResponse :=
  clientCall "Failed to upload file" (transport file)

/-- `ingestText` from `api.ts`: posts `{ text }` and handles the outcome as
`clientCall` with the fallback `"Failed to ingest text"`. -/
def ingestText (transport : String → AxiosOutcome IngestResponse)
    (text : String) : ClientResult IngestResponse :=
  clientCall "Failed to ingest text" (transport text)

/-- `getHealth` from `api.ts`: gets `/health` (whose data shape is untyped in
the source, hence the type parameter) and handles the outcome as `clientCall`
with the fallback `"Health check failed"`. -/
def getHealth {α : Type} (transport : Unit → AxiosOutcome α) : ClientResult α :=
  clientCall "Health check failed" (transport ())

end ApiClient

namespace RagStore

/-- On a text that fits within `chunkSize`, the splitting loop yields the whole
text as its only segment (for any positive fuel). -/
theorem chunkAux_short (chunkSize step fuel : Nat) (cs : List Char)
    (h : cs.length ≤ chunkSize) : chunkAux chunkSize step (fuel + 1) cs = [cs] := by
  simp [chunkAux, h]

end RagStore

/-- C6: for every text and parameters with `overlap ≥ chunkSize`, the chunker
fails with `ConfigError` and returns no sequence of segments. -/
theorem chunk_overlap_ge_size_configError (text : String) (chunkSize overlap : Nat)
    (h : chunkSize ≤ overlap) :
    RagStore.chunk text chunkSize overlap = .error RagStore.StoreError.configError := by
  simp [RagStore.chunk, h]

/-- Witness for C6 at a concrete input: `chunk "hello" 3 3` fails with
`ConfigError`. -/
theorem chunk_overlap_ge_size_configError_witness :
    RagStore.chunk "hello" 3 3 = .error RagStore.StoreError.configError :=
  chunk_overlap_ge_size_configError "hello" 3 3 (by decide)

/-- C7: a non-empty text strictly shorter than `chunkSize`, with valid
parameters `overlap < chunkSize`, yields exactly one segment equal to the whole
input text. -/
theorem chunk_short_text_single_segment (text : String) (chunkSize overlap : Nat)
    (hne : text ≠ "") (hlen : text.length < chunkSize) (hov : overlap < chunkSize) :
    RagStore.chunk text chunkSize overlap = .ok [text] := by
  have hnot : ¬ chunkSize ≤ overlap := Nat.not_le.mpr hov
  have hchars : text.toList ≠ [] := by
    intro hnil
    apply hne
    cases text with
    | mk data =>
      have hdata : data = [] := by simpa [String.toList] using hnil
      subst hdata
      rfl
  have hlen' : text.toList.length ≤ chunkSize := by
    have : text.toList.length = text.length := by
      cases text with
      | mk data => simp [String.toList, String.length]
    omega
  have hemp : ¬ text.toList.isEmpty := by
    simpa [List.isEmpty_iff] using hchars
  obtain ⟨c, cs, hcons⟩ := List.exists_cons_of_ne_nil hchars
  simp only [RagStore.chunk, hnot, if_false, hemp, if_false, ite_false]
  rw [hcons]
  rw [show (c :: cs).length = cs.length + 1 from rfl]
  rw [RagStore.chunkAux_short _ _ _ _ (by rw [← hcons]; exact hlen')]
  simp only [List.map_cons, List.map_nil]
  rw [← hcons]
  cases text with
  | mk data => simp [String.toList]

/-- Witness for C7 at a concrete input: `chunk "ab" 5 1` returns exactly
`["ab"]`. -/
theorem chunk_short_text_single_segment_witness :
    RagStore.chunk "ab" 5 1 = .ok ["ab"] :=
  chunk_short_text_single_segment "ab" 5 1 (by decide) (by decide) (by decide)

/-- C4: for every query vector, every `k` and every threshold, `search`
returns a sequence of `(position, similarity)` pairs sorted in descending
order of similarity (`simGE`), of length at most `k`, containing no pair whose
similarity is below the threshold. -/
theorem search_sorted_truncated_thresholded (idx : RagStore.VectorIndex)
    (q : RagStore.Vec) (k : Nat) (threshold : ℚ) :
    List.Sorted RagStore.simGE (idx.search q k threshold) ∧
    (idx.search q k threshold).length ≤ k ∧
    ∀ p ∈ idx.search q k threshold, threshold ≤ p.2 := by
  unfold RagStore.VectorIndex.search
  refine ⟨?_, ?_, ?_⟩
  · exact List.Pairwise.sublist (List.take_sublist _ _)
      (List.sorted_insertionSort RagStore.simGE _)
  · simp [List.length_take]
  · intro p hp
    have hp1 := List.mem_of_mem_take hp
    have hp2 := (List.perm_insertionSort RagStore.simGE _).mem_iff.mp hp1
    have hp3 := List.mem_filter.mp hp2
    exact of_decide_eq_true hp3.2

/-- Witness for C4 at a concrete input: the spec's scenario of an index of
three one-dimensional vectors queried with `topK = 2`, `threshold = 9/10`. -/
theorem search_sorted_truncated_thresholded_witness :
    List.Sorted RagStore.simGE
      (RagStore.VectorIndex.search ⟨some 1, [[1], [1/2], [2/5]]⟩ [1] 2 (9/10)) ∧
    (RagStore.VectorIndex.search ⟨some 1, [[1], [1/2], [2/5]]⟩ [1] 2 (9/10)).length ≤ 2 :=
  ⟨(search_sorted_truncated_thresholded ⟨some 1, [[1], [1/2], [2/5]]⟩ [1] 2 (9/10)).1,
   (search_sorted_truncated_thresholded ⟨some 1, [[1], [1/2], [2/5]]⟩ [1] 2 (9/10)).2.1⟩

/-- C5: a query issued while the store is empty (vector count zero) returns an
empty sequence of results, for every question, `topK` and threshold, and is
not an error. -/
theorem query_empty_store_ok_empty (embedQ : String → Except RagStore.StoreError RagStore.Vec)
    (st : RagStore.StoreState) (question : String) (topK : Nat) (threshold : ℚ)
    (h : st.index.vectors = []) :
    RagStore.queryStore embedQ st question topK threshold = .ok [] := by
  simp [RagStore.queryStore, h]

/-- Witness for C5 at a concrete input: a query against the initial empty
store returns `[]` even under an embedding client that always fails. -/
theorem query_empty_store_ok_empty_witness :
    RagStore.queryStore (fun _ => .error RagStore.StoreError.configError)
      RagStore.emptyStore "question" 3 0 = .ok [] :=
  query_empty_store_ok_empty _ RagStore.emptyStore "question" 3 0 rfl

/-- C8: `reset()` is idempotent — from any store state, two consecutive resets
agree with a single reset on the chunk store, the vector index and the
reported stats, and a single reset already reports the empty state: zero
chunks, zero vectors, `isSynced = true`. -/
theorem reset_idempotent (st : RagStore.StoreState) :
    (RagStore.reset (RagStore.reset st)).chunks = (RagStore.reset st).chunks ∧
    (RagStore.reset (RagStore.reset st)).index = (RagStore.reset st).index ∧
    RagStore.stats (RagStore.reset (RagStore.reset st)) = RagStore.stats (RagStore.reset st) ∧
    RagStore.stats (RagStore.reset st) =
      { chunksCount := 0, totalVectors := 0, isSynced := true, documentsCount := 0 } :=
  ⟨rfl, rfl, rfl, rfl⟩

/-- C1: an ingest call whose embedding step fails aborts with the
`EmbeddingFailed` error, appends nothing to the Chunk Store or the Vector
Index (the returned state is the pre-call state itself), and leaves `stats()`
identical to its pre-call value. -/
theorem ingest_embed_failure_no_mutation
    (embed : List String → Except RagStore.StoreError (List RagStore.Vec))
    (st : RagStore.StoreState) (text srcId : String) (meta : List (String × String))
    (chunkSize overlap : Nat) (texts : List String) (e : RagStore.StoreError)
    (hfrozen : st.frozen = false)
    (hchunk : RagStore.chunk text chunkSize overlap = .ok texts)
    (hembed : embed texts = .error e) :
    RagStore.ingest embed st text srcId meta chunkSize overlap
      = (st, .error RagStore.StoreError.embeddingFailed) ∧
    RagStore.stats (RagStore.ingest embed st text srcId meta chunkSize overlap).1
      = RagStore.stats st := by
  have hmain : RagStore.ingest embed st text srcId meta chunkSize overlap
      = (st, .error RagStore.StoreError.embeddingFailed) := by
    simp [RagStore.ingest, hfrozen, hchunk, hembed]
  exact ⟨hmain, by rw [hmain]⟩

/-- Witness for C1 at a concrete input: ingesting `"hello world"` into the
empty store under an embedding client that always fails leaves the store
untouched and reports `EmbeddingFailed`. -/
theorem ingest_embed_failure_no_mutation_witness :
    RagStore.ingest (fun _ => .error (RagStore.StoreError.embeddingProvider "boom"))
      RagStore.emptyStore "hello world" "doc1" [] 5 1
      = (RagStore.emptyStore, .error RagStore.StoreError.embeddingFailed) ∧
    RagStore.stats
        (RagStore.ingest (fun _ => .error (RagStore.StoreError.embeddingProvider "boom"))
          RagStore.emptyStore "hello world" "doc1" [] 5 1).1
      = RagStore.stats RagStore.emptyStore :=
  ingest_embed_failure_no_mutation _ RagStore.emptyStore "hello world" "doc1" [] 5 1
    ["hello", "o wor", "rld"] (RagStore.StoreError.embeddingProvider "boom") rfl
    rfl rfl

namespace RagStore

/-- A single ingest call preserves the sync invariant I1: whatever the
embedding client does, matching chunk and vector counts stay matching (every
failure path leaves the two collections untouched, and the success path has
verified the counts match). -/
theorem ingest_preserves_len_eq
    (embed : List String → Except StoreError (List Vec)) (st : StoreState)
    (text srcId : String) (meta : List (String × String)) (chunkSize overlap : Nat)
    (h : st.chunks.length = st.index.vectors.length) :
    (ingest embed st text srcId meta chunkSize overlap).1.chunks.length
      = (ingest embed st text srcId meta chunkSize overlap).1.index.vectors.length := by
  unfold ingest
  split
  · exact h
  · split
    · exact h
    · split
      · exact h
      · split
        · exact h
        · split
          · assumption
          · exact h

/-- Running any sequence of ingest calls preserves matching chunk and vector
counts. -/
theorem runIngests_len_eq (embed : List String → Except StoreError (List Vec))
    (reqs : List IngestRequest) : ∀ st : StoreState,
    st.chunks.length = st.index.vectors.length →
    (runIngests embed reqs st).1.chunks.length
      = (runIngests embed reqs st).1.index.vectors.length := by
  induction reqs with
  | nil => intro st h; simpa [runIngests] using h
  | cons r rs ih =>
    intro st h
    simp only [runIngests]
    exact ih _ (ingest_preserves_len_eq embed st r.text r.sourceDocumentId r.metadata
      r.chunkSize r.overlap h)

end RagStore

/-- C2: after every sequence of successful ingest calls starting from the
empty store, the chunk count equals the vector count and `stats().isSynced` is
`true`.  (Quantifying over all request lists covers the state after each call
of a longer sequence; the invariant in fact holds whether or not the calls
succeed, since every failure path leaves the collections untouched.) -/
theorem ingest_sequence_keeps_synced
    (embed : List String → Except RagStore.StoreError (List RagStore.Vec))
    (reqs : List RagStore.IngestRequest)
    (hok : ∀ r ∈ (RagStore.runIngests embed reqs RagStore.emptyStore).2,
      RagStore.isOk r = true) :
    (RagStore.stats (RagStore.runIngests embed reqs RagStore.emptyStore).1).isSynced = true ∧
    (RagStore.stats (RagStore.runIngests embed reqs RagStore.emptyStore).1).chunksCount
      = (RagStore.stats (RagStore.runIngests embed reqs RagStore.emptyStore).1).totalVectors := by
  have hlen := RagStore.runIngests_len_eq embed reqs RagStore.emptyStore rfl
  refine ⟨?_, hlen⟩
  show ((RagStore.runIngests embed reqs RagStore.emptyStore).1.chunks.length
      == (RagStore.runIngests embed reqs RagStore.emptyStore).1.index.vectors.length) = true
  simp [hlen]

/-- Witness for C2 at a concrete input: one successful ingest of
`"hello world"` (three chunks) under the stub embedding client leaves the
store synced with matching counts. -/
theorem ingest_sequence_keeps_synced_witness :
    (∀ r ∈ (RagStore.runIngests RagStore.stubEmbed
        [⟨"hello world", "doc1", [], 5, 1⟩] RagStore.emptyStore).2,
      RagStore.isOk r = true) ∧
    (RagStore.stats (RagStore.runIngests RagStore.stubEmbed
        [⟨"hello world", "doc1", [], 5, 1⟩] RagStore.emptyStore).1).isSynced = true ∧
    (RagStore.stats (RagStore.runIngests RagStore.stubEmbed
        [⟨"hello world", "doc1", [], 5, 1⟩] RagStore.emptyStore).1).chunksCount
      = (RagStore.stats (RagStore.runIngests RagStore.stubEmbed
        [⟨"hello world", "doc1", [], 5, 1⟩] RagStore.emptyStore).1).totalVectors :=
  ⟨by decide,
   ingest_sequence_keeps_synced RagStore.stubEmbed
     [⟨"hello world", "doc1", [], 5, 1⟩] (by decide)⟩

/-- C3 counterexample: the `IngestResponse` record declared in `api.ts` — the
record the claim cites — has no `total_vectors` (nor `totalVectors`) field at
all: its fields are exactly `message`, `chunks_added` and `total_chunks`, so a
successful ingest response is not a record containing `totalVectors`. -/
theorem ingestResponse_lacks_totalVectors_field :
    (ApiClient.ingestResponseFields.contains "total_vectors"
      || ApiClient.ingestResponseFields.contains "totalVectors") = false := by
  decide

/-- C3 (amended): the ingest response record declared in the frontend client
contains `message`, `chunks_added` and `total_chunks` (and no `totalVectors`
field), and in the spec-modelled store every successful ingest result draws
its reported counts from the authoritative post-add state — `totalVectors` is
the post-add vector count of the Vector Index and `totalChunks` the post-add
chunk count, the two being equal — never an estimated or pre-commit count. -/
theorem ingest_reports_post_add_counts :
    ApiClient.ingestResponseFields = ["message", "chunks_added", "total_chunks"] ∧
    ∀ (embed : List String → Except RagStore.StoreError (List RagStore.Vec))
      (st : RagStore.StoreState) (text srcId : String) (meta : List (String × String))
      (chunkSize overlap : Nat) (st2 : RagStore.StoreState) (res : RagStore.IngestResult),
      RagStore.ingest embed st text srcId meta chunkSize overlap = (st2, .ok res) →
      res.totalVectors = st2.index.vectors.length ∧
      res.totalChunks = st2.chunks.length ∧
      res.totalChunks = res.totalVectors := by
  refine ⟨rfl, ?_⟩
  intro embed st text srcId meta chunkSize overlap st2 res heq
  unfold RagStore.ingest at heq
  split at heq
  · simp at heq
  · split at heq
    · simp at heq
    · split at heq
      · simp at heq
      · split at heq
        · simp at heq
        · split at heq
          · rw [Prod.mk.injEq] at heq
            obtain ⟨hst2, hres⟩ := heq
            rw [Except.ok.injEq] at hres
            subst hst2
            subst hres
            refine ⟨rfl, rfl, ?_⟩
            assumption
          · simp at heq

/-- Witness for the amended C3 at a concrete input: the successful ingest of
`"hello world"` into the empty store under the stub embedding client. -/
theorem ingest_reports_post_add_counts_witness :
    ({ chunksAdded := 3, totalChunks := 3, totalVectors := 3 }
        : RagStore.IngestResult).totalVectors
      = ({ chunks := [⟨0, "hello", "doc1", []⟩, ⟨1, "o wor", "doc1", []⟩,
                      ⟨2, "rld", "doc1", []⟩],
           index := { dim := some 1, vectors := [[1], [1], [1]] },
           generation := 0, frozen := false } : RagStore.StoreState).index.vectors.length ∧
    ({ chunksAdded := 3, totalChunks := 3, totalVectors := 3 }
        : RagStore.IngestResult).totalChunks
      = ({ chunks := [⟨0, "hello", "doc1", []⟩, ⟨1, "o wor", "doc1", []⟩,
                      ⟨2, "rld", "doc1", []⟩],
           index := { dim := some 1, vectors := [[1], [1], [1]] },
           generation := 0, frozen := false } : RagStore.StoreState).chunks.length ∧
    ({ chunksAdded := 3, totalChunks := 3, totalVectors := 3 }
        : RagStore.IngestResult).totalChunks
      = ({ chunksAdded := 3, totalChunks := 3, totalVectors := 3 }
        : RagStore.IngestResult).totalVectors :=
  ingest_reports_post_add_counts.2 RagStore.stubEmbed RagStore.emptyStore
    "hello world" "doc1" [] 5 1
    { chunks := [⟨0, "hello", "doc1", []⟩, ⟨1, "o wor", "doc1", []⟩,
                 ⟨2, "rld", "doc1", []⟩],
      index := { dim := some 1, vectors := [[1], [1], [1]] },
      generation := 0, frozen := false }
    { chunksAdded := 3, totalChunks := 3, totalVectors := 3 } rfl

/-- C9: each frontend API client function either returns the backend's parsed
response data or throws an `Error`; on failure the thrown message is the
backend's `detail` field when present (JavaScript truthiness: present and
non-empty), otherwise the transport error's `message`, otherwise the
function's fixed fallback string — and a failure is never turned into a
successful return value.  The first three conjuncts interpret `jsOr` (the
embedding of the source's `||` cascade) in exactly those terms. -/
theorem apiClient_failure_never_swallowed :
    (∀ (s b : String), s ≠ "" → ApiClient.jsOr (some s) b = s) ∧
    (∀ b : String, ApiClient.jsOr none b = b) ∧
    (∀ b : String, ApiClient.jsOr (some "") b = b) ∧
    (∀ (transport : ApiClient.QueryRequest → ApiClient.AxiosOutcome ApiClient.QueryResponse)
       (q : String) (tk : Option Nat) (th : Option ℚ),
      (∀ d, transport (ApiClient.queryRequestBody q tk th) = .success d →
        ApiClient.queryDocuments transport q tk th = .ok d) ∧
      (∀ det msg, transport (ApiClient.queryRequestBody q tk th) = .failure det msg →
        ApiClient.queryDocuments transport q tk th
          = .thrown (ApiClient.jsOr det (ApiClient.jsOr msg "Failed to query documents")) ∧
        ∀ d, ApiClient.queryDocuments transport q tk th ≠ .ok d)) ∧
    (∀ (File : Type) (transport : File → ApiClient.AxiosOutcome ApiClient.IngestResponse)
       (file : File),
      (∀ d, transport file = .success d → ApiClient.uploadDocument transport file = .ok d) ∧
      (∀ det msg, transport file = .failure det msg →
        ApiClient.uploadDocument transport file
          = .thrown (ApiClient.jsOr det (ApiClient.jsOr msg "Failed to upload file")) ∧
        ∀ d, ApiClient.uploadDocument transport file ≠ .ok d)) ∧
    (∀ (transport : String → ApiClient.AxiosOutcome ApiClient.IngestResponse) (text : String),
      (∀ d, transport text = .success d → ApiClient.ingestText transport text = .ok d) ∧
      (∀ det msg, transport text = .failure det msg →
        ApiClient.ingestText transport text
          = .thrown (ApiClient.jsOr det (ApiClient.jsOr msg "Failed to ingest text")) ∧
        ∀ d, ApiClient.ingestText transport text ≠ .ok d)) ∧
    (∀ (α : Type) (transport : Unit → ApiClient.AxiosOutcome α),
      (∀ d, transport () = .success d → ApiClient.getHealth transport = .ok d) ∧
      (∀ det msg, transport () = .failure det msg →
        ApiClient.getHealth transport
          = .thrown (ApiClient.jsOr det (ApiClient.jsOr msg "Health check failed")) ∧
        ∀ d, ApiClient.getHealth transport ≠ .ok d)) := by
  refine ⟨?_, ?_, ?_, ?_, ?_, ?_, ?_⟩
  · intro s b hs
    simp [ApiClient.jsOr, hs]
  · intro b
    rfl
  · intro b
    rfl
  · intro transport q tk th
    refine ⟨?_, ?_⟩
    · intro d hd
      simp [ApiClient.queryDocuments, ApiClient.clientCall, hd]
    · intro det msg hf
      refine ⟨?_, ?_⟩
      · simp [ApiClient.queryDocuments, ApiClient.clientCall, hf]
      · intro d hd
        simp [ApiClient.queryDocuments, ApiClient.clientCall, hf] at hd
  · intro File transport file
    refine ⟨?_, ?_⟩
    · intro d hd
      simp [ApiClient.uploadDocument, ApiClient.clientCall, hd]
    · intro det msg hf
      refine ⟨?_, ?_⟩
      · simp [ApiClient.uploadDocument, ApiClient.clientCall, hf]
      · intro d hd
        simp [ApiClient.uploadDocument, ApiClient.clientCall, hf] at hd
  · intro transport text
    refine ⟨?_, ?_⟩
    · intro d hd
      simp [ApiClient.ingestText, ApiClient.clientCall, hd]
    · intro det msg hf
      refine ⟨?_, ?_⟩
      · simp [ApiClient.ingestText, ApiClient.clientCall, hf]
      · intro d hd
        simp [ApiClient.ingestText, ApiClient.clientCall, hf] at hd
  · intro α transport
    refine ⟨?_, ?_⟩
    · intro d hd
      simp [ApiClient.getHealth, ApiClient.clientCall, hd]
    · intro det msg hf
      refine ⟨?_, ?_⟩
      · simp [ApiClient.getHealth, ApiClient.clientCall, hf]
      · intro d hd
        simp [ApiClient.getHealth, ApiClient.clientCall, hf] at hd

/-- Witness for C9 at concrete inputs: a query failure whose backend detail is
`"boom"` throws exactly `"boom"`, and a health-check failure with neither
detail nor message throws the fixed fallback string. -/
theorem apiClient_failure_never_swallowed_witness :
    ApiClient.queryDocuments (fun _ => .failure (some "boom") none) "q" none none
      = .thrown "boom" ∧
    ApiClient.getHealth (α := ApiClient.IngestResponse) (fun _ => .failure none none)
      = .thrown "Health check failed" := by
  obtain ⟨h1, h2, _, hq, _, _, hg⟩ := apiClient_failure_never_swallowed
  constructor
  · have hcall := ((hq (fun _ => .failure (some "boom") none) "q" none none).2
      (some "boom") none rfl).1
    rw [hcall, h2 "Failed to query documents", h1 "boom" "Failed to query documents"
      (by decide)]
  · have hcall := ((hg ApiClient.IngestResponse (fun _ => .failure none none)).2
      none none rfl).1
    rw [hcall, h2 "Health check failed", h2 "Health check failed"]

/-- C10: `queryDocuments` forwards its arguments unchanged as the request
fields `query`, `top_k` and `threshold`, applies no client-side defaults (an
omitted `topK` or `threshold` leaves the corresponding field undefined), and
posts exactly that request body over the transport. -/
theorem queryDocuments_forwards_args :
    (∀ (q : String) (tk : Option Nat) (th : Option ℚ),
      (ApiClient.queryRequestBody q tk th).query = q ∧
      (ApiClient.queryRequestBody q tk th).top_k = tk ∧
      (ApiClient.queryRequestBody q tk th).threshold = th) ∧
    (∀ (q : String) (th : Option ℚ), (ApiClient.queryRequestBody q none th).top_k = none) ∧
    (∀ (q : String) (tk : Option Nat),
      (ApiClient.queryRequestBody q tk none).threshold = none) ∧
    (∀ (transport : ApiClient.QueryRequest → ApiClient.AxiosOutcome ApiClient.QueryResponse)
       (q : String) (tk : Option Nat) (th : Option ℚ),
      ApiClient.queryDocuments transport q tk th
        = ApiClient.clientCall "Failed to query documents"
            (transport (ApiClient.queryRequestBody q tk th))) :=
  ⟨fun _ _ _ => ⟨rfl, rfl, rfl⟩, fun _ _ => rfl, fun _ _ => rfl, fun _ _ _ _ => rfl⟩
